import Mathlib

/-!
Verification development for the rust-dicom store-and-forward pair.

Shallow embedding of the repository source:
* `src/common/transfer_syntaxes.rs` and `src/common/sop_classes.rs` (catalogs),
* `src/dicom_client.rs` (namespace `DC`) and `src/sender/dicom_client.rs`
  (namespace `Sender`), the two parallel sender implementations,
* `src/receiver/receiver.rs` (namespace `Receiver`),
* `src/main_new.rs` (namespace `MainNew`).

Bytes are modelled as `Nat`, byte buffers as `List Nat`, durations as `Nat`
time units, and the `HashMap`s of the source as association lists (all the
map operations of the source are key-based, so insertion order is immaterial).
Network and file-system effects are modelled as explicit event traces.
-/

/-- Embeds `TransferSyntaxCategory` from `src/common/transfer_syntaxes.rs`. -/
inductive TransferSyntaxCategory
  | Uncompressed
  | LosslessCompressed
  | LossyCompressed
  | Legacy
  | Video
deriving DecidableEq, BEq

/-- Embeds `CompressionType` from `src/common/transfer_syntaxes.rs`. -/
inductive CompressionType
  | None
  | JPEG
  | JPEGLossless
  | JPEGLS
  | JPEG2000
  | RLE
  | MPEG2
  | MPEG4
  | H264
  | H265
deriving DecidableEq, BEq

/-- Embeds `TransferSyntaxInfo` from `src/common/transfer_syntaxes.rs`. -/
structure TransferSyntaxInfo where
  uid : String
  name : String
  category : TransferSyntaxCategory
  compression : CompressionType
  isLittleEndian : Bool
  isExplicitVR : Bool
  supportsEncapsulation : Bool
deriving DecidableEq

/-- Embeds the static table `ALL_TRANSFER_SYNTAXES` of
`src/common/transfer_syntaxes.rs`, in source order. -/
def ALL_TRANSFER_SYNTAXES : List TransferSyntaxInfo := [
  ⟨"1.2.840.10008.1.2", "Implicit VR Little Endian", .Uncompressed, .None, true, false, false⟩,
  ⟨"1.2.840.10008.1.2.1", "Explicit VR Little Endian", .Uncompressed, .None, true, true, false⟩,
  ⟨"1.2.840.10008.1.2.2", "Explicit VR Big Endian (Retired)", .Legacy, .None, false, true, false⟩,
  ⟨"1.2.840.10008.1.2.4.50", "JPEG Baseline (Process 1)", .LossyCompressed, .JPEG, true, true, true⟩,
  ⟨"1.2.840.10008.1.2.4.51", "JPEG Extended (Process 2 & 4)", .LossyCompressed, .JPEG, true, true, true⟩,
  ⟨"1.2.840.10008.1.2.4.52", "JPEG Extended (Process 3 & 5) (Retired)", .Legacy, .JPEG, true, true, true⟩,
  ⟨"1.2.840.10008.1.2.4.53", "JPEG Spectral Selection, Non-Hierarchical (Process 6 & 8) (Retired)", .Legacy, .JPEG, true, true, true⟩,
  ⟨"1.2.840.10008.1.2.4.54", "JPEG Spectral Selection, Non-Hierarchical (Process 7 & 9) (Retired)", .Legacy, .JPEG, true, true, true⟩,
  ⟨"1.2.840.10008.1.2.4.55", "JPEG Full Progression, Non-Hierarchical (Process 10 & 12) (Retired)", .Legacy, .JPEG, true, true, true⟩,
  ⟨"1.2.840.10008.1.2.4.56", "JPEG Full Progression, Non-Hierarchical (Process 11 & 13) (Retired)", .Legacy, .JPEG, true, true, true⟩,
  ⟨"1.2.840.10008.1.2.4.57", "JPEG Lossless, Non-Hierarchical (Process 14)", .LosslessCompressed, .JPEGLossless, true, true, true⟩,
  ⟨"1.2.840.10008.1.2.4.58", "JPEG Lossless, Non-Hierarchical (Process 15) (Retired)", .Legacy, .JPEGLossless, true, true, true⟩,
  ⟨"1.2.840.10008.1.2.4.59", "JPEG Extended, Hierarchical (Process 16 & 18) (Retired)", .Legacy, .JPEG, true, true, true⟩,
  ⟨"1.2.840.10008.1.2.4.60", "JPEG Extended, Hierarchical (Process 17 & 19) (Retired)", .Legacy, .JPEG, true, true, true⟩,
  ⟨"1.2.840.10008.1.2.4.61", "JPEG Spectral Selection, Hierarchical (Process 20 & 22) (Retired)", .Legacy, .JPEG, true, true, true⟩,
  ⟨"1.2.840.10008.1.2.4.62", "JPEG Spectral Selection, Hierarchical (Process 21 & 23) (Retired)", .Legacy, .JPEG, true, true, true⟩,
  ⟨"1.2.840.10008.1.2.4.63", "JPEG Full Progression, Hierarchical (Process 24 & 26) (Retired)", .Legacy, .JPEG, true, true, true⟩,
  ⟨"1.2.840.10008.1.2.4.64", "JPEG Full Progression, Hierarchical (Process 25 & 27) (Retired)", .Legacy, .JPEG, true, true, true⟩,
  ⟨"1.2.840.10008.1.2.4.65", "JPEG Lossless, Hierarchical (Process 28) (Retired)", .Legacy, .JPEGLossless, true, true, true⟩,
  ⟨"1.2.840.10008.1.2.4.66", "JPEG Lossless, Hierarchical (Process 29) (Retired)", .Legacy, .JPEGLossless, true, true, true⟩,
  ⟨"1.2.840.10008.1.2.4.70", "JPEG Lossless, Non-Hierarchical, First-Order Prediction (Process 14 [Selection Value 1])", .LosslessCompressed, .JPEGLossless, true, true, true⟩,
  ⟨"1.2.840.10008.1.2.4.80", "JPEG-LS Lossless Image Compression", .LosslessCompressed, .JPEGLS, true, true, true⟩,
  ⟨"1.2.840.10008.1.2.4.81", "JPEG-LS Lossy (Near-Lossless) Image Compression", .LossyCompressed, .JPEGLS, true, true, true⟩,
  ⟨"1.2.840.10008.1.2.4.90", "JPEG 2000 Image Compression (Lossless Only)", .LosslessCompressed, .JPEG2000, true, true, true⟩,
  ⟨"1.2.840.10008.1.2.4.91", "JPEG 2000 Image Compression", .LossyCompressed, .JPEG2000, true, true, true⟩,
  ⟨"1.2.840.10008.1.2.4.92", "JPEG 2000 Part 2 Multi-component Image Compression (Lossless Only)", .LosslessCompressed, .JPEG2000, true, true, true⟩,
  ⟨"1.2.840.10008.1.2.4.93", "JPEG 2000 Part 2 Multi-component Image Compression", .LossyCompressed, .JPEG2000, true, true, true⟩,
  ⟨"1.2.840.10008.1.2.4.94", "JPIP Referenced", .Legacy, .JPEG2000, true, true, true⟩,
  ⟨"1.2.840.10008.1.2.4.95", "JPIP Referenced Deflate", .Legacy, .JPEG2000, true, true, true⟩,
  ⟨"1.2.840.10008.1.2.5", "RLE Lossless", .LosslessCompressed, .RLE, true, true, true⟩,
  ⟨"1.2.840.10008.1.2.6.1", "RFC 2557 MIME encapsulation (Retired)", .Legacy, .None, true, true, false⟩,
  ⟨"1.2.840.10008.1.2.6.2", "XML Encoding (Retired)", .Legacy, .None, true, true, false⟩,
  ⟨"1.2.840.10008.1.2.7.1", "SMPTE ST 2110-20 Uncompressed Progressive Active Video", .Video, .None, true, true, true⟩,
  ⟨"1.2.840.10008.1.2.7.2", "SMPTE ST 2110-20 Uncompressed Interlaced Active Video", .Video, .None, true, true, true⟩,
  ⟨"1.2.840.10008.1.2.7.3", "SMPTE ST 2110-30 PCM Digital Audio", .Video, .None, true, true, true⟩,
  ⟨"1.2.840.10008.1.2.4.100", "MPEG2 Main Profile / Main Level", .Video, .MPEG2, true, true, true⟩,
  ⟨"1.2.840.10008.1.2.4.101", "MPEG2 Main Profile / High Level", .Video, .MPEG2, true, true, true⟩,
  ⟨"1.2.840.10008.1.2.4.102", "MPEG-4 AVC/H.264 High Profile / Level 4.1", .Video, .H264, true, true, true⟩,
  ⟨"1.2.840.10008.1.2.4.103", "MPEG-4 AVC/H.264 BD-compatible High Profile / Level 4.1", .Video, .H264, true, true, true⟩,
  ⟨"1.2.840.10008.1.2.4.104", "MPEG-4 AVC/H.264 High Profile / Level 4.2 For 2D Video", .Video, .H264, true, true, true⟩,
  ⟨"1.2.840.10008.1.2.4.105", "MPEG-4 AVC/H.264 High Profile / Level 4.2 For 3D Video", .Video, .H264, true, true, true⟩,
  ⟨"1.2.840.10008.1.2.4.106", "MPEG-4 AVC/H.264 Stereo High Profile / Level 4.2", .Video, .H264, true, true, true⟩,
  ⟨"1.2.840.10008.1.2.4.107", "HEVC/H.265 Main Profile / Level 5.1", .Video, .H265, true, true, true⟩,
  ⟨"1.2.840.10008.1.2.4.108", "HEVC/H.265 Main 10 Profile / Level 5.1", .Video, .H265, true, true, true⟩,
  ⟨"1.2.840.10008.1.2.4.201", "High-Throughput JPEG 2000 Image Compression (Lossless Only)", .LosslessCompressed, .JPEG2000, true, true, true⟩,
  ⟨"1.2.840.10008.1.2.4.202", "High-Throughput JPEG 2000 with RPCL Options Image Compression (Lossless Only)", .LosslessCompressed, .JPEG2000, true, true, true⟩,
  ⟨"1.2.840.10008.1.2.4.203", "High-Throughput JPEG 2000 Image Compression", .LossyCompressed, .JPEG2000, true, true, true⟩,
]

/-- Embeds `TransferSyntaxRegistry::get` (`HashMap` keyed by `uid`; the uids of
the table are pairwise distinct, so a first-match scan agrees with the map). -/
def TransferSyntaxRegistry.get (uid : String) : Option TransferSyntaxInfo :=
  ALL_TRANSFER_SYNTAXES.find? (fun ts => ts.uid == uid)

/-- Embeds `TransferSyntaxRegistry::get_all_uids`. -/
def TransferSyntaxRegistry.get_all_uids : List String :=
  ALL_TRANSFER_SYNTAXES.map (fun ts => ts.uid)

/-- Embeds `TransferSyntaxRegistry::get_by_category`. -/
def TransferSyntaxRegistry.get_by_category (category : TransferSyntaxCategory) : List TransferSyntaxInfo :=
  ALL_TRANSFER_SYNTAXES.filter (fun ts => ts.category == category)

/-- Embeds `TransferSyntaxRegistry::is_supported`. -/
def TransferSyntaxRegistry.is_supported (uid : String) : Bool :=
  (TransferSyntaxRegistry.get uid).isSome

/-- Embeds `TransferSyntaxRegistry::requires_encapsulation`. -/
def TransferSyntaxRegistry.requires_encapsulation (uid : String) : Bool :=
  ((TransferSyntaxRegistry.get uid).map (fun ts => ts.supportsEncapsulation)).getD false

/-- Embeds `get_basic_transfer_syntaxes` from `src/common/transfer_syntaxes.rs`. -/
def get_basic_transfer_syntaxes : List String := [
  "1.2.840.10008.1.2.1",
  "1.2.840.10008.1.2"
]

/-- Embeds `get_lossless_transfer_syntaxes` from `src/common/transfer_syntaxes.rs`. -/
def get_lossless_transfer_syntaxes : List String := [
  "1.2.840.10008.1.2.1",
  "1.2.840.10008.1.2",
  "1.2.840.10008.1.2.4.70",
  "1.2.840.10008.1.2.4.80",
  "1.2.840.10008.1.2.4.90",
  "1.2.840.10008.1.2.5"
]

/-- Embeds `get_compressed_transfer_syntaxes` from `src/common/transfer_syntaxes.rs`. -/
def get_compressed_transfer_syntaxes : List String := [
  "1.2.840.10008.1.2.1",
  "1.2.840.10008.1.2",
  "1.2.840.10008.1.2.4.50",
  "1.2.840.10008.1.2.4.51",
  "1.2.840.10008.1.2.4.70",
  "1.2.840.10008.1.2.4.80",
  "1.2.840.10008.1.2.4.81",
  "1.2.840.10008.1.2.4.90",
  "1.2.840.10008.1.2.4.91",
  "1.2.840.10008.1.2.5"
]

/-- Embeds `get_comprehensive_transfer_syntaxes` from `src/common/transfer_syntaxes.rs`. -/
def get_comprehensive_transfer_syntaxes : List String :=
  TransferSyntaxRegistry.get_all_uids

/-- Embeds `get_video_transfer_syntaxes` from `src/common/transfer_syntaxes.rs`. -/
def get_video_transfer_syntaxes : List String :=
  (TransferSyntaxRegistry.get_by_category TransferSyntaxCategory.Video).map (fun ts => ts.uid)

/-- Embeds `SopClassCategory` from `src/common/sop_classes.rs`. -/
inductive SopClassCategory
  | ComputedRadiography
  | ComputedTomography
  | MagneticResonance
  | Ultrasound
  | NuclearMedicine
  | DigitalRadiography
  | DigitalMammography
  | PetCt
  | OpticalCoherenceTomography
  | Endoscopy
  | Microscopy
  | StructuredReporting
  | Presentation
  | Waveform
  | RawData
  | SecondaryCapture
  | KeyObjectSelection
  | Enhanced
  | MultiFrame
  | Radiotherapy
  | Ophthalmology
  | Dermatology
  | Dental
  | Legacy
  | Other
deriving DecidableEq, BEq

/-- Embeds `SopClassInfo` from `src/common/sop_classes.rs`. -/
structure SopClassInfo where
  uid : String
  name : String
  category : SopClassCategory
deriving DecidableEq

/-- Part 1 of the `ALL_SOP_CLASSES` table (split only to keep elaboration fast). -/
def ALL_SOP_CLASSES_1 : List SopClassInfo := [
  ⟨"1.2.840.10008.5.1.4.1.1.1", "Computed Radiography Image Storage", .ComputedRadiography⟩,
  ⟨"1.2.840.10008.5.1.4.1.1.1.1", "Digital X-Ray Image Storage - For Presentation", .DigitalRadiography⟩,
  ⟨"1.2.840.10008.5.1.4.1.1.1.1.1", "Digital X-Ray Image Storage - For Processing", .DigitalRadiography⟩,
  ⟨"1.2.840.10008.5.1.4.1.1.1.2", "Digital Mammography X-Ray Image Storage - For Presentation", .DigitalMammography⟩,
  ⟨"1.2.840.10008.5.1.4.1.1.1.2.1", "Digital Mammography X-Ray Image Storage - For Processing", .DigitalMammography⟩,
  ⟨"1.2.840.10008.5.1.4.1.1.1.3", "Digital Intra-Oral X-Ray Image Storage - For Presentation", .Dental⟩,
  ⟨"1.2.840.10008.5.1.4.1.1.1.3.1", "Digital Intra-Oral X-Ray Image Storage - For Processing", .Dental⟩,
  ⟨"1.2.840.10008.5.1.4.1.1.2", "CT Image Storage", .ComputedTomography⟩,
  ⟨"1.2.840.10008.5.1.4.1.1.2.1", "Enhanced CT Image Storage", .Enhanced⟩,
  ⟨"1.2.840.10008.5.1.4.1.1.2.2", "Legacy Converted Enhanced CT Image Storage", .Legacy⟩,
  ⟨"1.2.840.10008.5.1.4.1.1.3.1", "Ultrasound Multi-frame Image Storage", .Ultrasound⟩,
  ⟨"1.2.840.10008.5.1.4.1.1.4", "MR Image Storage", .MagneticResonance⟩,
  ⟨"1.2.840.10008.5.1.4.1.1.4.1", "Enhanced MR Image Storage", .Enhanced⟩,
  ⟨"1.2.840.10008.5.1.4.1.1.4.2", "MR Spectroscopy Storage", .MagneticResonance⟩,
  ⟨"1.2.840.10008.5.1.4.1.1.4.3", "Enhanced MR Color Image Storage", .Enhanced⟩,
  ⟨"1.2.840.10008.5.1.4.1.1.4.4", "Legacy Converted Enhanced MR Image Storage", .Legacy⟩,
  ⟨"1.2.840.10008.5.1.4.1.1.5", "Nuclear Medicine Image Storage (Retired)", .Legacy⟩,
  ⟨"1.2.840.10008.5.1.4.1.1.20", "Nuclear Medicine Image Storage", .NuclearMedicine⟩,
  ⟨"1.2.840.10008.5.1.4.1.1.6.1", "Ultrasound Image Storage", .Ultrasound⟩,
  ⟨"1.2.840.10008.5.1.4.1.1.6.2", "Enhanced US Volume Storage", .Enhanced⟩
]

/-- Part 2 of the `ALL_SOP_CLASSES` table (split only to keep elaboration fast). -/
def ALL_SOP_CLASSES_2 : List SopClassInfo := [
  ⟨"1.2.840.10008.5.1.4.1.1.7", "Secondary Capture Image Storage", .SecondaryCapture⟩,
  ⟨"1.2.840.10008.5.1.4.1.1.7.1", "Multi-frame Single Bit Secondary Capture Image Storage", .SecondaryCapture⟩,
  ⟨"1.2.840.10008.5.1.4.1.1.7.2", "Multi-frame Grayscale Byte Secondary Capture Image Storage", .SecondaryCapture⟩,
  ⟨"1.2.840.10008.5.1.4.1.1.7.3", "Multi-frame Grayscale Word Secondary Capture Image Storage", .SecondaryCapture⟩,
  ⟨"1.2.840.10008.5.1.4.1.1.7.4", "Multi-frame True Color Secondary Capture Image Storage", .SecondaryCapture⟩,
  ⟨"1.2.840.10008.5.1.4.1.1.12.1", "X-Ray Angiographic Image Storage", .DigitalRadiography⟩,
  ⟨"1.2.840.10008.5.1.4.1.1.12.1.1", "Enhanced XA Image Storage", .Enhanced⟩,
  ⟨"1.2.840.10008.5.1.4.1.1.12.2", "X-Ray Radiofluoroscopic Image Storage", .DigitalRadiography⟩,
  ⟨"1.2.840.10008.5.1.4.1.1.12.2.1", "Enhanced XRF Image Storage", .Enhanced⟩,
  ⟨"1.2.840.10008.5.1.4.1.1.128", "Positron Emission Tomography Image Storage", .NuclearMedicine⟩,
  ⟨"1.2.840.10008.5.1.4.1.1.130", "Enhanced PET Image Storage", .Enhanced⟩,
  ⟨"1.2.840.10008.5.1.4.1.1.131", "Legacy Converted Enhanced PET Image Storage", .Legacy⟩,
  ⟨"1.2.840.10008.5.1.4.1.1.481.1", "RT Image Storage", .Radiotherapy⟩,
  ⟨"1.2.840.10008.5.1.4.1.1.481.2", "RT Dose Storage", .Radiotherapy⟩,
  ⟨"1.2.840.10008.5.1.4.1.1.481.3", "RT Structure Set Storage", .Radiotherapy⟩,
  ⟨"1.2.840.10008.5.1.4.1.1.481.4", "RT Beams Treatment Record Storage", .Radiotherapy⟩,
  ⟨"1.2.840.10008.5.1.4.1.1.481.5", "RT Plan Storage", .Radiotherapy⟩,
  ⟨"1.2.840.10008.5.1.4.1.1.481.6", "RT Brachy Treatment Record Storage", .Radiotherapy⟩,
  ⟨"1.2.840.10008.5.1.4.1.1.481.7", "RT Treatment Summary Record Storage", .Radiotherapy⟩,
  ⟨"1.2.840.10008.5.1.4.1.1.481.8", "RT Ion Plan Storage", .Radiotherapy⟩
]

/-- Part 3 of the `ALL_SOP_CLASSES` table (split only to keep elaboration fast). -/
def ALL_SOP_CLASSES_3 : List SopClassInfo := [
  ⟨"1.2.840.10008.5.1.4.1.1.481.9", "RT Ion Beams Treatment Record Storage", .Radiotherapy⟩,
  ⟨"1.2.840.10008.5.1.4.1.1.9.1.1", "12-lead ECG Waveform Storage", .Waveform⟩,
  ⟨"1.2.840.10008.5.1.4.1.1.9.1.2", "General ECG Waveform Storage", .Waveform⟩,
  ⟨"1.2.840.10008.5.1.4.1.1.9.1.3", "Ambulatory ECG Waveform Storage", .Waveform⟩,
  ⟨"1.2.840.10008.5.1.4.1.1.9.2.1", "Hemodynamic Waveform Storage", .Waveform⟩,
  ⟨"1.2.840.10008.5.1.4.1.1.9.3.1", "Cardiac Electrophysiology Waveform Storage", .Waveform⟩,
  ⟨"1.2.840.10008.5.1.4.1.1.9.4.1", "Basic Voice Audio Waveform Storage", .Waveform⟩,
  ⟨"1.2.840.10008.5.1.4.1.1.9.4.2", "General Audio Waveform Storage", .Waveform⟩,
  ⟨"1.2.840.10008.5.1.4.1.1.9.5.1", "Arterial Pulse Waveform Storage", .Waveform⟩,
  ⟨"1.2.840.10008.5.1.4.1.1.9.6.1", "Respiratory Waveform Storage", .Waveform⟩,
  ⟨"1.2.840.10008.5.1.4.1.1.9.6.2", "Multi-channel Respiratory Waveform Storage", .Waveform⟩,
  ⟨"1.2.840.10008.5.1.4.1.1.9.7.1", "Routine Scalp Electroencephalogram Waveform Storage", .Waveform⟩,
  ⟨"1.2.840.10008.5.1.4.1.1.9.7.2", "Electromyogram Waveform Storage", .Waveform⟩,
  ⟨"1.2.840.10008.5.1.4.1.1.9.7.3", "Electrooculogram Waveform Storage", .Waveform⟩,
  ⟨"1.2.840.10008.5.1.4.1.1.9.7.4", "Sleep Electroencephalogram Waveform Storage", .Waveform⟩,
  ⟨"1.2.840.10008.5.1.4.1.1.9.8.1", "Body Position Waveform Storage", .Waveform⟩,
  ⟨"1.2.840.10008.5.1.4.1.1.88.11", "Basic Text SR Storage", .StructuredReporting⟩,
  ⟨"1.2.840.10008.5.1.4.1.1.88.22", "Enhanced SR Storage", .StructuredReporting⟩,
  ⟨"1.2.840.10008.5.1.4.1.1.88.33", "Comprehensive SR Storage", .StructuredReporting⟩,
  ⟨"1.2.840.10008.5.1.4.1.1.88.40", "Procedure Log Storage", .StructuredReporting⟩
]

/-- Part 4 of the `ALL_SOP_CLASSES` table (split only to keep elaboration fast). -/
def ALL_SOP_CLASSES_4 : List SopClassInfo := [
  ⟨"1.2.840.10008.5.1.4.1.1.88.50", "Mammography CAD SR Storage", .StructuredReporting⟩,
  ⟨"1.2.840.10008.5.1.4.1.1.88.59", "Key Object Selection Document Storage", .KeyObjectSelection⟩,
  ⟨"1.2.840.10008.5.1.4.1.1.88.65", "Chest CAD SR Storage", .StructuredReporting⟩,
  ⟨"1.2.840.10008.5.1.4.1.1.88.67", "X-Ray Radiation Dose SR Storage", .StructuredReporting⟩,
  ⟨"1.2.840.10008.5.1.4.1.1.88.68", "Radiopharmaceutical Radiation Dose SR Storage", .StructuredReporting⟩,
  ⟨"1.2.840.10008.5.1.4.1.1.88.69", "Colon CAD SR Storage", .StructuredReporting⟩,
  ⟨"1.2.840.10008.5.1.4.1.1.88.70", "Implantation Plan SR Storage", .StructuredReporting⟩,
  ⟨"1.2.840.10008.5.1.4.1.1.88.71", "Acquisition Context SR Storage", .StructuredReporting⟩,
  ⟨"1.2.840.10008.5.1.4.1.1.88.72", "Simplified Adult Echo SR Storage", .StructuredReporting⟩,
  ⟨"1.2.840.10008.5.1.4.1.1.88.73", "Patient Radiation Dose SR Storage", .StructuredReporting⟩,
  ⟨"1.2.840.10008.5.1.4.1.1.88.74", "Planned Imaging Agent Administration SR Storage", .StructuredReporting⟩,
  ⟨"1.2.840.10008.5.1.4.1.1.88.75", "Performed Imaging Agent Administration SR Storage", .StructuredReporting⟩,
  ⟨"1.2.840.10008.5.1.4.1.1.88.76", "Enhanced X-Ray Radiation Dose SR Storage", .StructuredReporting⟩,
  ⟨"1.2.840.10008.5.1.4.1.1.66", "Raw Data Storage", .RawData⟩,
  ⟨"1.2.840.10008.5.1.4.1.1.66.1", "Spatial Registration Storage", .Other⟩,
  ⟨"1.2.840.10008.5.1.4.1.1.66.2", "Spatial Fiducials Storage", .Other⟩,
  ⟨"1.2.840.10008.5.1.4.1.1.66.3", "Deformable Spatial Registration Storage", .Other⟩,
  ⟨"1.2.840.10008.5.1.4.1.1.66.4", "Segmentation Storage", .Other⟩,
  ⟨"1.2.840.10008.5.1.4.1.1.66.5", "Surface Segmentation Storage", .Other⟩,
  ⟨"1.2.840.10008.5.1.4.1.1.66.6", "Tractography Results Storage", .Other⟩
]

/-- Part 5 of the `ALL_SOP_CLASSES` table (split only to keep elaboration fast). -/
def ALL_SOP_CLASSES_5 : List SopClassInfo := [
  ⟨"1.2.840.10008.5.1.4.1.1.11.1", "Grayscale Softcopy Presentation State Storage", .Presentation⟩,
  ⟨"1.2.840.10008.5.1.4.1.1.11.2", "Color Softcopy Presentation State Storage", .Presentation⟩,
  ⟨"1.2.840.10008.5.1.4.1.1.11.3", "Pseudo-Color Softcopy Presentation State Storage", .Presentation⟩,
  ⟨"1.2.840.10008.5.1.4.1.1.11.4", "Blending Softcopy Presentation State Storage", .Presentation⟩,
  ⟨"1.2.840.10008.5.1.4.1.1.11.5", "XA/XRF Grayscale Softcopy Presentation State Storage", .Presentation⟩,
  ⟨"1.2.840.10008.5.1.4.1.1.11.6", "Grayscale Planar MPR Volumetric Presentation State Storage", .Presentation⟩,
  ⟨"1.2.840.10008.5.1.4.1.1.11.7", "Compositing Planar MPR Volumetric Presentation State Storage", .Presentation⟩,
  ⟨"1.2.840.10008.5.1.4.1.1.11.8", "Advanced Blending Presentation State Storage", .Presentation⟩,
  ⟨"1.2.840.10008.5.1.4.1.1.11.9", "Volume Rendering Volumetric Presentation State Storage", .Presentation⟩,
  ⟨"1.2.840.10008.5.1.4.1.1.11.10", "Segmented Volume Rendering Volumetric Presentation State Storage", .Presentation⟩,
  ⟨"1.2.840.10008.5.1.4.1.1.11.11", "Multiple Volume Rendering Volumetric Presentation State Storage", .Presentation⟩,
  ⟨"1.2.840.10008.5.1.4.1.1.77.1.1", "Video Endoscopic Image Storage", .Endoscopy⟩,
  ⟨"1.2.840.10008.5.1.4.1.1.77.1.2", "Video Microscopic Image Storage", .Microscopy⟩,
  ⟨"1.2.840.10008.5.1.4.1.1.77.1.3", "Video Photographic Image Storage", .Other⟩,
  ⟨"1.2.840.10008.5.1.4.1.1.77.1.4", "Ophthalmic Photography 8 Bit Image Storage", .Ophthalmology⟩,
  ⟨"1.2.840.10008.5.1.4.1.1.77.1.4.1", "Ophthalmic Photography 16 Bit Image Storage", .Ophthalmology⟩,
  ⟨"1.2.840.10008.5.1.4.1.1.77.1.5.1", "Stereometric Relationship Storage", .Ophthalmology⟩,
  ⟨"1.2.840.10008.5.1.4.1.1.77.1.5.2", "Ophthalmic Tomography Image Storage", .OpticalCoherenceTomography⟩,
  ⟨"1.2.840.10008.5.1.4.1.1.77.1.5.3", "Wide Field Ophthalmic Photography Stereographic Projection Image Storage", .Ophthalmology⟩,
  ⟨"1.2.840.10008.5.1.4.1.1.77.1.5.4", "Wide Field Ophthalmic Photography 3D Coordinates Image Storage", .Ophthalmology⟩
]

/-- Part 6 of the `ALL_SOP_CLASSES` table (split only to keep elaboration fast). -/
def ALL_SOP_CLASSES_6 : List SopClassInfo := [
  ⟨"1.2.840.10008.5.1.4.1.1.77.1.5.5", "Ophthalmic Optical Coherence Tomography En Face Image Storage", .OpticalCoherenceTomography⟩,
  ⟨"1.2.840.10008.5.1.4.1.1.77.1.5.6", "Ophthalmic Optical Coherence Tomography B-scan Volume Analysis Storage", .OpticalCoherenceTomography⟩,
  ⟨"1.2.840.10008.5.1.4.1.1.77.1.5.7", "VL Whole Slide Microscopy Image Storage", .Microscopy⟩,
  ⟨"1.2.840.10008.5.1.4.1.1.77.1.5.8", "Dermoscopic Photography Image Storage", .Dermatology⟩,
  ⟨"1.2.840.10008.5.1.4.1.1.77.1.6", "Ophthalmic Visual Field Static Perimetry Measurements Storage", .Ophthalmology⟩,
  ⟨"1.2.840.10008.5.1.4.1.1.77.1.7", "Ophthalmic Thickness Map Storage", .Ophthalmology⟩,
  ⟨"1.2.840.10008.5.1.4.1.1.77.1.8", "Corneal Topography Map Storage", .Ophthalmology⟩,
  ⟨"1.2.840.10008.5.1.4.1.1.3", "Ultrasound Multi-frame Image Storage (Retired)", .Legacy⟩,
  ⟨"1.2.840.10008.5.1.4.1.1.8", "Standalone Overlay Storage (Retired)", .Legacy⟩,
  ⟨"1.2.840.10008.5.1.4.1.1.10", "Standalone Curve Storage (Retired)", .Legacy⟩,
  ⟨"1.2.840.10008.5.1.4.1.1.129", "Standalone PET Curve Storage (Retired)", .Legacy⟩,
  ⟨"1.2.840.10008.1.3.10", "Media Storage Directory Storage", .Other⟩,
  ⟨"1.2.840.10008.5.1.4.38.1", "Hanging Protocol Storage", .Other⟩,
  ⟨"1.2.840.10008.5.1.4.39.1", "Color Palette Storage", .Other⟩,
  ⟨"1.2.840.10008.5.1.4.43.1", "Generic Implant Template Storage", .Other⟩,
  ⟨"1.2.840.10008.5.1.4.44.1", "Implant Assembly Template Storage", .Other⟩,
  ⟨"1.2.840.10008.5.1.4.45.1", "Implant Template Group Storage", .Other⟩
]

/-- Embeds the static table `ALL_SOP_CLASSES` of `src/common/sop_classes.rs`, in source order. -/
def ALL_SOP_CLASSES : List SopClassInfo :=
  ALL_SOP_CLASSES_1 ++ ALL_SOP_CLASSES_2 ++ ALL_SOP_CLASSES_3 ++ ALL_SOP_CLASSES_4 ++ ALL_SOP_CLASSES_5 ++ ALL_SOP_CLASSES_6

/-- Embeds `SopClassRegistry::get` (`HashMap` keyed by `uid`; uids of the table
are pairwise distinct). -/
def SopClassRegistry.get (uid : String) : Option SopClassInfo :=
  ALL_SOP_CLASSES.find? (fun sc => sc.uid == uid)

/-- Embeds `SopClassRegistry::get_all_uids`. -/
def SopClassRegistry.get_all_uids : List String :=
  ALL_SOP_CLASSES.map (fun sc => sc.uid)

/-- Embeds `SopClassRegistry::is_supported`. -/
def SopClassRegistry.is_supported (uid : String) : Bool :=
  (SopClassRegistry.get uid).isSome

/-- Embeds `SopClassRegistry::get_name`. -/
def SopClassRegistry.get_name (uid : String) : Option String :=
  (SopClassRegistry.get uid).map (fun sc => sc.name)

/-- Embeds `get_transfer_syntaxes_for_category` from `src/common/sop_classes.rs`
(lines 785-824). -/
def get_transfer_syntaxes_for_category (category : SopClassCategory) : List String :=
  match category with
  | SopClassCategory.ComputedTomography
  | SopClassCategory.MagneticResonance
  | SopClassCategory.DigitalRadiography
  | SopClassCategory.DigitalMammography => get_compressed_transfer_syntaxes
  | SopClassCategory.Enhanced => get_comprehensive_transfer_syntaxes
  | SopClassCategory.Waveform
  | SopClassCategory.RawData => get_lossless_transfer_syntaxes
  | SopClassCategory.Endoscopy
  | SopClassCategory.Microscopy => get_compressed_transfer_syntaxes ++ get_video_transfer_syntaxes
  | SopClassCategory.Legacy => get_basic_transfer_syntaxes
  | _ => get_lossless_transfer_syntaxes

/-- Follows the words of the specification, not the source: the "Lossless set"
of the §4.1 policy table (Explicit/Implicit VR LE + JPEG-Lossless + JPEG-LS
Lossless + JPEG 2000 Lossless + RLE), as UIDs. Used only on the spec side of
the C8 refinement comparison. -/
def specLosslessSet : List String := [
  "1.2.840.10008.1.2.1",
  "1.2.840.10008.1.2",
  "1.2.840.10008.1.2.4.70",
  "1.2.840.10008.1.2.4.80",
  "1.2.840.10008.1.2.4.90",
  "1.2.840.10008.1.2.5"
]

/-- Follows the words of the specification: the "Compressed set" of the §4.1
policy table (Explicit/Implicit VR LE + JPEG Baseline/Extended + JPEG-Lossless
+ JPEG-LS both + JPEG 2000 both + RLE), as UIDs. -/
def specCompressedSet : List String := [
  "1.2.840.10008.1.2.1",
  "1.2.840.10008.1.2",
  "1.2.840.10008.1.2.4.50",
  "1.2.840.10008.1.2.4.51",
  "1.2.840.10008.1.2.4.70",
  "1.2.840.10008.1.2.4.80",
  "1.2.840.10008.1.2.4.81",
  "1.2.840.10008.1.2.4.90",
  "1.2.840.10008.1.2.4.91",
  "1.2.840.10008.1.2.5"
]

/-- Follows the words of the specification: the "Basic set" of the §4.1 policy
table (Explicit VR LE, Implicit VR LE). -/
def specBasicSet : List String := [
  "1.2.840.10008.1.2.1",
  "1.2.840.10008.1.2"
]

/-- Follows the words of the specification: "all Video syntaxes" of the
registered transfer-syntax catalog, spelled out explicitly (the twelve Video
entries of the catalog in registration order). -/
def specVideoSet : List String := [
  "1.2.840.10008.1.2.7.1",
  "1.2.840.10008.1.2.7.2",
  "1.2.840.10008.1.2.7.3",
  "1.2.840.10008.1.2.4.100",
  "1.2.840.10008.1.2.4.101",
  "1.2.840.10008.1.2.4.102",
  "1.2.840.10008.1.2.4.103",
  "1.2.840.10008.1.2.4.104",
  "1.2.840.10008.1.2.4.105",
  "1.2.840.10008.1.2.4.106",
  "1.2.840.10008.1.2.4.107",
  "1.2.840.10008.1.2.4.108"
]

/-- Follows the words of the specification (§4.1 policy table and claim C8),
not the source: the prescribed policy per SOP-class category. "Enhanced gets
every registered transfer syntax" is the UID list of the full catalog. -/
def specTransferSyntaxPolicy (category : SopClassCategory) : List String :=
  match category with
  | SopClassCategory.ComputedTomography
  | SopClassCategory.MagneticResonance
  | SopClassCategory.DigitalRadiography
  | SopClassCategory.DigitalMammography => specCompressedSet
  | SopClassCategory.Enhanced => ALL_TRANSFER_SYNTAXES.map (fun ts => ts.uid)
  | SopClassCategory.Waveform
  | SopClassCategory.RawData => specLosslessSet
  | SopClassCategory.Endoscopy
  | SopClassCategory.Microscopy => specCompressedSet ++ specVideoSet
  | SopClassCategory.Legacy => specBasicSet
  | _ => specLosslessSet

/-- Embeds `DicomFile` from `src/common/types.rs` (and the structurally
identical `src/types.rs`); `path` is the path string, `file_size` a `Nat`. -/
structure DicomFile where
  path : String
  studyInstanceUid : String
  seriesInstanceUid : String
  sopInstanceUid : String
  sopClassUid : String
  fileSize : Nat
  modality : Option String
  patientId : Option String
  studyDate : Option String
deriving DecidableEq

/-- Embeds `TransferStats` from `src/common/types.rs`; `Duration` values are
abstract `Nat` time units. -/
structure TransferStats where
  totalFiles : Nat
  successfulTransfers : Nat
  failedTransfers : Nat
  totalBytes : Nat
  totalTime : Nat
  transferTimes : List Nat
deriving DecidableEq

/-- Embeds `TransferStats::new`. -/
def TransferStats.new : TransferStats :=
  { totalFiles := 0, successfulTransfers := 0, failedTransfers := 0,
    totalBytes := 0, totalTime := 0, transferTimes := [] }

/-- Embeds `dicom_ul::pdu::PDataValueType` (the two PDV kinds used by the
repository). -/
inductive PDataValueType
  | command
  | data
deriving DecidableEq, BEq

/-- Embeds `dicom_ul::pdu::PDataValue`; `data` is the byte buffer as a list of
byte values. -/
structure PDataValue where
  presentationContextId : Nat
  valueType : PDataValueType
  isLast : Bool
  data : List Nat
deriving DecidableEq

/-- Embeds the `dicom_ul::pdu::Pdu` variants the sender and
receiver construct or match on (`PData`, `ReleaseRQ`, `ReleaseRP`, abort). -/
inductive Pdu
  | pdata (data : List PDataValue)
  | releaseRQ
  | releaseRP
  | abortRQ (source : Nat) (reason : Nat)
deriving DecidableEq

/-- Embeds `dicom_ul::pdu::PresentationContextResultReason` (the result code of the acceptor for one proposed presentation context). -/
inductive PresentationContextResultReason
  | acceptance
  | userRejection
  | noReason
  | abstractSyntaxNotSupported
  | transferSyntaxesNotSupported
deriving DecidableEq, BEq

/-- Embeds `dicom_ul::pdu::PresentationContextResult` as iterated by
`association.presentation_contexts()`: context id, result reason and the
accepted transfer syntax (field `transfer_syntax` in the library). -/
structure PresentationContextResult where
  id : Nat
  reason : PresentationContextResultReason
  transferSyntaxUid : String
deriving DecidableEq

/-- Embeds the dataset fragmentation `while` loop shared verbatim by
`send_single_file_simple` in `src/dicom_client.rs` (lines 260-286) and
`src/sender/dicom_client.rs` (lines 421-446), phrased on the unsent suffix of
`dataset_buffer`: `chunk_size = min(max_pdu_data_size, remaining)`,
`is_last = remaining <= max_pdu_data_size`, one Data PDV per iteration. Both
call sites fix `max_pdu_data_size = 16000`; with a cap of `0` the source loop
would not terminate, and that unreachable case is totalised to `[]`. -/
def chunkPdvs (presentationContextId maxPduDataSize : Nat) (buf : List Nat) : List PDataValue :=
  if h1 : buf = [] then []
  else if h2 : maxPduDataSize = 0 then []
  else
    { presentationContextId := presentationContextId,
      valueType := PDataValueType.data,
      isLast := decide (buf.length ≤ maxPduDataSize),
      data := buf.take (min maxPduDataSize buf.length) } ::
      chunkPdvs presentationContextId maxPduDataSize (buf.drop (min maxPduDataSize buf.length))
termination_by buf.length
decreasing_by
  simp only [List.length_drop]
  have hpos : 0 < buf.length := List.length_pos.mpr h1
  omega

/-- Network events of one C-STORE exchange as performed by the senders: a PDU
written to the association, or one blocking `association.receive()`. -/
inductive WireEvent
  | sentPdu (pdu : Pdu)
  | receivedRsp
deriving DecidableEq

/-- Tests whether a wire event is a blocking response receive. -/
def WireEvent.isReceive : WireEvent → Bool
  | WireEvent.receivedRsp => true
  | _ => false

namespace DC

/-- Embeds the presentation-context selection loop of `send_single_file_simple`
in `src/dicom_client.rs` (lines 163-175): the first context with
`reason == Acceptance` is taken; the `sop_class_uid` of the file is never compared
against anything. -/
def findAcceptedContext (pcs : List PresentationContextResult) : Option PresentationContextResult :=
  pcs.find? (fun pc => pc.reason == PresentationContextResultReason.acceptance)

/-- Embeds the constant `max_pdu_data_size` of `src/dicom_client.rs` line 261. -/
def maxPduDataSize : Nat := 16000

/-- Embeds lines 260-300 of `src/dicom_client.rs`: the fragmentation loop sends
one P-DATA-TF per chunk, and a single `association.receive()` follows the loop. -/
def datasetTrace (presentationContextId : Nat) (datasetBuffer : List Nat) : List WireEvent :=
  (chunkPdvs presentationContextId maxPduDataSize datasetBuffer).map
    (fun pdv => WireEvent.sentPdu (Pdu.pdata [pdv])) ++ [WireEvent.receivedRsp]

/-- Embeds the wire behaviour of one `send_single_file_simple` call in
`src/dicom_client.rs` after the file is opened and serialized: command P-DATA-TF
first (lines 247-257), then the dataset chunks and the single receive. -/
def storeTrace (presentationContextId : Nat) (commandBuffer datasetBuffer : List Nat) : List WireEvent :=
  WireEvent.sentPdu (Pdu.pdata [{ presentationContextId := presentationContextId,
                                  valueType := PDataValueType.command,
                                  isLast := true,
                                  data := commandBuffer }]) ::
    datasetTrace presentationContextId datasetBuffer

/-- Embeds the response handling of `src/dicom_client.rs` lines 291-303 (the
same match appears in `src/sender/dicom_client.rs` lines 449-457): whatever PDU
the receive yields — a P-DATA response of any status, or any other PDU such as
an A-ABORT — the function falls through and returns `Ok(dataset length)`. -/
def cStoreReplyResult (reply : Pdu) (datasetLen : Nat) : Except String Nat :=
  match reply with
  | Pdu.pdata _ => Except.ok datasetLen
  | _ => Except.ok datasetLen

end DC

namespace Sender

/-- Embeds the constant `max_pdu_data_size` of `src/sender/dicom_client.rs`
line 422. -/
def maxPduDataSize : Nat := 16000

/-- Embeds lines 421-458 of `src/sender/dicom_client.rs`: the fragmentation
loop sends one P-DATA-TF per chunk and then performs a blocking
`association.receive()` inside the loop body, after every chunk. -/
def datasetTrace (presentationContextId : Nat) (datasetBuffer : List Nat) : List WireEvent :=
  (chunkPdvs presentationContextId maxPduDataSize datasetBuffer).flatMap
    (fun pdv => [WireEvent.sentPdu (Pdu.pdata [pdv]), WireEvent.receivedRsp])

/-- Looks a context id up in the `sop_uid_mapping` `HashMap` of
`src/sender/dicom_client.rs` (modelled as an association list). -/
def lookupSopUid (sopUidMapping : List (Nat × String)) (id : Nat) : Option String :=
  (sopUidMapping.find? (fun p => p.1 == id)).map (fun p => p.2)

/-- Embeds the presentation-context selection loop of `send_single_file_simple`
in `src/sender/dicom_client.rs` (lines 241-259): the first accepted context
whose `sop_uid_mapping` entry equals the `sop_class_uid` of the file is taken. -/
def findContextForSopClass (pcs : List PresentationContextResult)
    (sopUidMapping : List (Nat × String)) (sopClassUid : String) :
    Option PresentationContextResult :=
  pcs.find? (fun pc =>
    pc.reason == PresentationContextResultReason.acceptance &&
      ((lookupSopUid sopUidMapping pc.id).map (fun uid => uid == sopClassUid)).getD false)

/-- Embeds the `required_sop_classes` `HashSet` construction of
`src/sender/dicom_client.rs` (lines 83-89): the set of distinct
`sop_class_uid`s of the file list, modelled in first-occurrence order (the
`HashSet` iteration order is unspecified; every claim about it here is
order-insensitive or about membership and distinctness of this list). -/
def uniqueSopClasses (files : List DicomFile) : List String :=
  files.foldl (fun acc f => if f.sopClassUid ∈ acc then acc else acc ++ [f.sopClassUid]) []

/-- Embeds the fixed proposal list `transfer_syntaxes` of
`src/sender/dicom_client.rs` lines 94-97 ("Use basic transfer syntaxes to
avoid too many contexts"). -/
def proposalTransferSyntaxes : List String :=
  ["1.2.840.10008.1.2.1", "1.2.840.10008.1.2"]

/-- Embeds the proposal loop of `src/sender/dicom_client.rs` lines 100-120: one
presentation context per unique SOP class UID, each with the fixed basic
transfer-syntax list (both the known- and unknown-SOP-class branches call
`with_presentation_context(sop_uid, ts_refs)`). -/
def proposedContexts (files : List DicomFile) : List (String × List String) :=
  (uniqueSopClasses files).map (fun sopUid => (sopUid, proposalTransferSyntaxes))

end Sender

/-- Embeds `DicomClientConfig` from `src/dicom_client.rs` /
`src/sender/dicom_client.rs`; the timeout `Duration` is abstract `Nat` seconds. -/
structure DicomClientConfig where
  callingAe : String
  calledAe : String
  host : String
  port : Nat
  timeoutSecs : Nat
deriving DecidableEq

/-- Observable network-level actions of a `send_files` call, used to state that
the empty-input path performs no connection attempt. -/
inductive NetAction
  | connect (host : String) (port : Nat)
  | storeAttempt (path : String)
  | released
deriving DecidableEq

/-- Embeds the per-file accumulation loop shared verbatim by
`send_files_blocking` in `src/dicom_client.rs` (lines 106-130) and
`src/sender/dicom_client.rs` (lines 175-199): each `Ok(bytes)` outcome (with
its measured transfer time) bumps `successful_transfers`, `total_bytes` and
`transfer_times`; each `Err` bumps `failed_transfers`; finally
`total_files = files.len()`. The outcome of the per-file
`send_single_file_simple` call (bytes sent, transfer time) is a parameter. -/
def sendFilesLoopStats (outcomes : List (Except String (Nat × Nat))) : TransferStats :=
  let looped := outcomes.foldl
    (fun stats outcome =>
      match outcome with
      | Except.ok (bytes, time) =>
          { stats with
            successfulTransfers := stats.successfulTransfers + 1,
            totalBytes := stats.totalBytes + bytes,
            transferTimes := stats.transferTimes ++ [time] }
      | Except.error _ =>
          { stats with failedTransfers := stats.failedTransfers + 1 })
    TransferStats.new
  { looped with totalFiles := outcomes.length }

namespace DC

/-- Embeds `send_files_blocking` of `src/dicom_client.rs` (lines 60-145) at the
network-action level: establish the association (the `connect`), run the
per-file loop, release. `estab` is the outcome of `establish_with`, and
`perFile` the outcome of each `send_single_file_simple` call. -/
def sendFilesBlocking (config : DicomClientConfig) (files : List DicomFile)
    (estab : Except String Unit) (perFile : DicomFile → Except String (Nat × Nat)) :
    Except String TransferStats × List NetAction :=
  match estab with
  | Except.error e => (Except.error e, [NetAction.connect config.host config.port])
  | Except.ok _ =>
      (Except.ok (sendFilesLoopStats (files.map perFile)),
        NetAction.connect config.host config.port ::
          files.map (fun f => NetAction.storeAttempt f.path) ++ [NetAction.released])

/-- Embeds `send_files` of `src/dicom_client.rs` (lines 29-58): an empty file
list returns `Ok(TransferStats::new())` before any association code runs;
otherwise the blocking implementation is invoked (its `total_time` field, set
from a wall clock, is not modelled). -/
def sendFiles (config : DicomClientConfig) (files : List DicomFile)
    (estab : Except String Unit) (perFile : DicomFile → Except String (Nat × Nat)) :
    Except String TransferStats × List NetAction :=
  if files.isEmpty then (Except.ok TransferStats.new, [])
  else sendFilesBlocking config files estab perFile

end DC

namespace Sender

/-- Embeds `send_files_blocking` of `src/sender/dicom_client.rs` (lines 63-214)
at the network-action level; identical loop structure to the `DC` variant, with
the presentation contexts of `proposedContexts` proposed before connecting. -/
def sendFilesBlocking (config : DicomClientConfig) (files : List DicomFile)
    (estab : Except String Unit) (perFile : DicomFile → Except String (Nat × Nat)) :
    Except String TransferStats × List NetAction :=
  match estab with
  | Except.error e => (Except.error e, [NetAction.connect config.host config.port])
  | Except.ok _ =>
      (Except.ok (sendFilesLoopStats (files.map perFile)),
        NetAction.connect config.host config.port ::
          files.map (fun f => NetAction.storeAttempt f.path) ++ [NetAction.released])

/-- Embeds `send_files` of `src/sender/dicom_client.rs` (lines 32-61): an empty
file list returns `Ok(TransferStats::new())` before any association code runs. -/
def sendFiles (config : DicomClientConfig) (files : List DicomFile)
    (estab : Except String Unit) (perFile : DicomFile → Except String (Nat × Nat)) :
    Except String TransferStats × List NetAction :=
  if files.isEmpty then (Except.ok TransferStats.new, [])
  else sendFilesBlocking config files estab perFile

end Sender

namespace MainNew

/-- Embeds the per-study accumulation loop of `send_studies_worker` in
`src/main_new.rs` (lines 237-263). Each study carries its file list and the
outcome of `client.send_files(files)`: on `Ok(stats)` every stats field is
added into the combined stats; on `Err` only `failed_transfers` is increased,
by `files.len()` — `total_files` is left untouched. -/
def sendStudiesWorker (studies : List (List DicomFile × Except String TransferStats)) :
    TransferStats :=
  studies.foldl
    (fun combined study =>
      match study.2 with
      | Except.ok stats =>
          { combined with
            totalFiles := combined.totalFiles + stats.totalFiles,
            successfulTransfers := combined.successfulTransfers + stats.successfulTransfers,
            failedTransfers := combined.failedTransfers + stats.failedTransfers,
            totalBytes := combined.totalBytes + stats.totalBytes,
            transferTimes := combined.transferTimes ++ stats.transferTimes }
      | Except.error _ =>
          { combined with failedTransfers := combined.failedTransfers + study.1.length })
    TransferStats.new

end MainNew

namespace Receiver

/-- Embeds `DicomTransfer` from `src/receiver/receiver.rs` (lines 19-26); the
`started_at` wall-clock timestamp (used only in output filenames) is not
modelled. -/
structure DicomTransfer where
  commandReceived : Bool
  datasetChunks : List (List Nat)
  totalBytes : Nat
  presentationContextId : Nat
deriving DecidableEq

/-- Embeds `DicomTransfer::new`. -/
def DicomTransfer.new (presentationContextId : Nat) : DicomTransfer :=
  { commandReceived := false, datasetChunks := [], totalBytes := 0,
    presentationContextId := presentationContextId }

/-- Embeds `DicomTransfer::add_chunk` (lines 39-42): the chunk is pushed at the
end, preserving arrival order. -/
def DicomTransfer.add_chunk (t : DicomTransfer) (chunk : List Nat) : DicomTransfer :=
  { t with totalBytes := t.totalBytes + chunk.length,
           datasetChunks := t.datasetChunks ++ [chunk] }

/-- Embeds `DicomTransfer::reconstruct_dataset` (lines 44-50): chunks are
concatenated in arrival order into one buffer. -/
def DicomTransfer.reconstruct_dataset (t : DicomTransfer) : List Nat :=
  t.datasetChunks.foldl (fun dataset chunk => dataset ++ chunk) []

/-- Embeds the per-connection receiver state `transfers: HashMap<u8, DicomTransfer>`
as an association list; all source operations on it are key-based. -/
abbrev TransferMap : Type := List (Nat × DicomTransfer)

/-- Key lookup in the transfer map. -/
def TransferMap.lookup (m : TransferMap) (k : Nat) : Option DicomTransfer :=
  ((List.find? (fun p => p.1 == k)) m).map (fun p => p.2)

/-- Key update/insert in the transfer map. -/
def TransferMap.insert (m : TransferMap) (k : Nat) (v : DicomTransfer) : TransferMap :=
  match m with
  | [] => [(k, v)]
  | p :: rest =>
      if p.1 == k then (k, v) :: rest else p :: TransferMap.insert rest k v

/-- Key removal from the transfer map (embeds `transfers.remove(&pc_id)`). -/
def TransferMap.remove (m : TransferMap) (k : Nat) : TransferMap :=
  List.filter (fun p => !(p.1 == k)) m

/-- Observable effects of the receiver loop: a completed dataset written to the
output directory, a PDU written back to the association. -/
inductive RecvEvent
  | savedFile (presentationContextId : Nat) (bytes : List Nat)
  | sentPdu (pdu : Pdu)
deriving DecidableEq

/-- Embeds the literal `response_data` byte vector of `send_c_store_response`
in `src/receiver/receiver.rs` (lines 351-358), exactly as written there. -/
def responseData : List Nat := [
  0x00, 0x00, 0x00, 0x00, 0x04, 0x00, 0x00, 0x00, 0x38, 0x00, 0x00, 0x00,
  0x00, 0x00, 0x02, 0x00, 0x12, 0x00, 0x00, 0x00, 0x01, 0x80, 0x00, 0x00,
  0x00, 0x00, 0x00, 0x01, 0x02, 0x00, 0x00, 0x00, 0x00, 0x80, 0x00, 0x00,
  0x00, 0x00, 0x10, 0x01, 0x02, 0x00, 0x00, 0x00, 0x01, 0x00, 0x00, 0x00,
  0x00, 0x00, 0x00, 0x09, 0x02, 0x00, 0x00, 0x00, 0x00, 0x00, 0x00, 0x00
]

/-- Embeds `send_c_store_response` of `src/receiver/receiver.rs` (lines
345-372): the presentation context id is taken from the first PDV of the
request (default 1), and the fixed `responseData` blob is sent as a single
last Command PDV. -/
def send_c_store_response (data : List PDataValue) : Pdu :=
  let pcId := ((data.head?).map (fun pv => pv.presentationContextId)).getD 1
  Pdu.pdata [{ presentationContextId := pcId,
               valueType := PDataValueType.command,
               isLast := true,
               data := responseData }]

/-- Embeds the per-PDV body of the receive loop in `handle_connection_blocking`
(`src/receiver/receiver.rs` lines 180-228): fetch or create the transfer for
the context of the PDV; a Command PDV only sets `command_received`; a Data PDV is
appended via `add_chunk`, and when `is_last` holds the reconstructed dataset is
written to disk and the transfer evicted. No ordering between Command and Data
PDVs is checked anywhere. -/
def processPDataValue (transfers : TransferMap) (pv : PDataValue) :
    TransferMap × List RecvEvent :=
  let pcId := pv.presentationContextId
  let transfer := (TransferMap.lookup transfers pcId).getD (DicomTransfer.new pcId)
  match pv.valueType with
  | PDataValueType.command =>
      (TransferMap.insert transfers pcId { transfer with commandReceived := true }, [])
  | PDataValueType.data =>
      let transfer := transfer.add_chunk pv.data
      if pv.isLast then
        (TransferMap.remove (TransferMap.insert transfers pcId transfer) pcId,
          [RecvEvent.savedFile pcId transfer.reconstruct_dataset])
      else
        (TransferMap.insert transfers pcId transfer, [])

/-- Embeds the `Pdu::PData` arm of the receive loop (`src/receiver/receiver.rs`
lines 176-238): every PDV of the PDU is processed in order, and then a C-STORE
response is sent — after every P-DATA PDU, whether or not any message
completed. -/
def processPData (transfers : TransferMap) (data : List PDataValue) :
    TransferMap × List RecvEvent :=
  let stepped := data.foldl
    (fun acc pv =>
      let next := processPDataValue acc.1 pv
      (next.1, acc.2 ++ next.2))
    (transfers, ([] : List RecvEvent))
  (stepped.1, stepped.2 ++ [RecvEvent.sentPdu (send_c_store_response data)])

/-- Feeds a list of arriving dataset chunks through the receiver-side
`add_chunk` pipeline, as the receive loop does for successive Data PDVs of one
context. -/
def arrivedTransfer (presentationContextId : Nat) (chunks : List (List Nat)) : DicomTransfer :=
  chunks.foldl DicomTransfer.add_chunk (DicomTransfer.new presentationContextId)

end Receiver

/-- Modelled from the spec: implicit VR little-endian encoding (§4.5.1) of one
group-0000 element with a two-byte US value. The repository delegates command
encoding to the external `dicom-rs` library (not under `src/`); this encoder is
used only to build concrete example command bytes in theorem statements. -/
def encodeUSElement (group elem value : Nat) : List Nat :=
  [group % 256, group / 256 % 256, elem % 256, elem / 256 % 256,
   2, 0, 0, 0, value % 256, value / 256 % 256]

/-- Tests whether the second list starts with the first. -/
def leadsWith : List Nat → List Nat → Bool
  | [], _ => true
  | _ :: _, [] => false
  | a :: s, b :: l => a == b && leadsWith s l

/-- Tests whether `seg` occurs as a contiguous segment of the second list. -/
def containsSeg (seg : List Nat) : List Nat → Bool
  | [] => leadsWith seg []
  | b :: l => leadsWith seg (b :: l) || containsSeg seg l

/-- Follows the words of the specification (§4.5.2 step 5), not the source:
a C-STORE status counts as success iff it is `0x0000` or of the form `0xB0xx`. -/
def specStatusIsSuccess (status : Nat) : Bool :=
  status == 0x0000 || (0xB000 ≤ status && status ≤ 0xB0FF)

/-! Lemmas about the fragmentation loop. -/

theorem chunkPdvs_nil (pcid limit : Nat) : chunkPdvs pcid limit [] = [] := by
  rw [chunkPdvs]
  simp

theorem take_min_length {α : Type} (n : Nat) (l : List α) :
    l.take (min n l.length) = l.take n := by
  rcases Nat.le_total n l.length with h | h
  · rw [Nat.min_eq_left h]
  · rw [Nat.min_eq_right h, List.take_length, List.take_of_length_le h]

theorem drop_min_length {α : Type} (n : Nat) (l : List α) :
    l.drop (min n l.length) = l.drop n := by
  rcases Nat.le_total n l.length with h | h
  · rw [Nat.min_eq_left h]
  · rw [Nat.min_eq_right h, List.drop_length, List.drop_of_length_le h]

theorem chunkPdvs_cons (pcid limit : Nat) (buf : List Nat) (h1 : buf ≠ []) (h2 : limit ≠ 0) :
    chunkPdvs pcid limit buf =
      { presentationContextId := pcid, valueType := PDataValueType.data,
        isLast := decide (buf.length ≤ limit), data := buf.take limit } ::
        chunkPdvs pcid limit (buf.drop limit) := by
  rw [chunkPdvs]
  rw [dif_neg h1, dif_neg h2, take_min_length, drop_min_length]

theorem chunkPdvs_drop_ne_nil (limit : Nat) (buf : List Nat) (h : ¬ buf.length ≤ limit) :
    buf.drop limit ≠ [] := by
  intro hc
  have := congrArg List.length hc
  simp only [List.length_drop, List.length_nil] at this
  omega

theorem chunkPdvs_ne_nil (pcid limit : Nat) (buf : List Nat) (h1 : buf ≠ []) (h2 : limit ≠ 0) :
    chunkPdvs pcid limit buf ≠ [] := by
  rw [chunkPdvs_cons pcid limit buf h1 h2]
  simp

theorem chunkPdvs_length (pcid limit : Nat) (h2 : limit ≠ 0) (buf : List Nat) :
    (chunkPdvs pcid limit buf).length = (buf.length + limit - 1) / limit := by
  by_cases h1 : buf = []
  · subst h1
    rw [chunkPdvs_nil]
    symm
    simp only [List.length_nil, Nat.zero_add, List.length]
    exact Nat.div_eq_of_lt (by omega)
  · rw [chunkPdvs_cons pcid limit buf h1 h2, List.length_cons,
      chunkPdvs_length pcid limit h2 (buf.drop limit), List.length_drop]
    have hb : 1 ≤ buf.length := Nat.one_le_iff_ne_zero.mpr (by
      intro hc; exact h1 (List.length_eq_zero.mp hc))
    have hpos : 0 < limit := Nat.pos_of_ne_zero h2
    have e2 : buf.length + limit - 1 = (buf.length - 1) + limit := by omega
    rw [e2, Nat.add_div_right _ hpos]
    rcases Nat.le_total buf.length limit with hle | hle
    · have e1 : buf.length - limit = 0 := by omega
      rw [e1]
      have d1 : (0 + limit - 1) / limit = 0 := Nat.div_eq_of_lt (by omega)
      have d2 : (buf.length - 1) / limit = 0 := Nat.div_eq_of_lt (by omega)
      rw [d1, d2]
    · have e1 : buf.length - limit + limit - 1 = buf.length - 1 := by omega
      rw [e1]
termination_by buf.length
decreasing_by
  simp only [List.length_drop]
  have := List.length_pos.mpr h1
  omega

theorem chunkPdvs_isLast_shape (pcid limit : Nat) (h2 : limit ≠ 0) (buf : List Nat)
    (h1 : buf ≠ []) :
    (chunkPdvs pcid limit buf).map PDataValue.isLast
      = List.replicate ((chunkPdvs pcid limit buf).length - 1) false ++ [true] := by
  by_cases hle : buf.length ≤ limit
  · rw [chunkPdvs_cons pcid limit buf h1 h2, List.drop_of_length_le hle, chunkPdvs_nil]
    simp [decide_eq_true hle]
  · have hd1 : buf.drop limit ≠ [] := chunkPdvs_drop_ne_nil limit buf hle
    rw [chunkPdvs_cons pcid limit buf h1 h2, List.map_cons,
      chunkPdvs_isLast_shape pcid limit h2 (buf.drop limit) hd1,
      decide_eq_false hle]
    have hm : 1 ≤ (chunkPdvs pcid limit (buf.drop limit)).length :=
      List.length_pos.mpr (chunkPdvs_ne_nil pcid limit (buf.drop limit) hd1 h2)
    simp only [List.length_cons]
    have e : (chunkPdvs pcid limit (buf.drop limit)).length + 1 - 1
        = ((chunkPdvs pcid limit (buf.drop limit)).length - 1) + 1 := by omega
    rw [e, List.replicate_succ]
    simp
termination_by buf.length
decreasing_by
  simp only [List.length_drop]
  have := List.length_pos.mpr h1
  omega

theorem chunkPdvs_dropLast_size (pcid limit : Nat) (h2 : limit ≠ 0) (buf : List Nat) :
    ∀ pdv ∈ (chunkPdvs pcid limit buf).dropLast, pdv.data.length = limit := by
  by_cases h1 : buf = []
  · subst h1
    rw [chunkPdvs_nil]
    intro pdv hm
    simp at hm
  by_cases hle : buf.length ≤ limit
  · rw [chunkPdvs_cons pcid limit buf h1 h2, List.drop_of_length_le hle, chunkPdvs_nil]
    intro pdv hm
    simp at hm
  · have hd1 : buf.drop limit ≠ [] := chunkPdvs_drop_ne_nil limit buf hle
    rw [chunkPdvs_cons pcid limit buf h1 h2]
    obtain ⟨y, ys, hy⟩ := List.exists_cons_of_ne_nil
      (chunkPdvs_ne_nil pcid limit (buf.drop limit) hd1 h2)
    rw [hy, List.dropLast_cons₂]
    intro pdv hm
    rcases List.mem_cons.mp hm with hfst | hrest
    · subst hfst
      simp only [List.length_take]
      omega
    · have := chunkPdvs_dropLast_size pcid limit h2 (buf.drop limit)
      rw [hy] at this
      exact this pdv hrest
termination_by buf.length
decreasing_by
  simp only [List.length_drop]
  have := List.length_pos.mpr h1
  omega

theorem add_chunk_reconstruct (t : Receiver.DicomTransfer) (chunk : List Nat) :
    (t.add_chunk chunk).reconstruct_dataset = t.reconstruct_dataset ++ chunk := by
  unfold Receiver.DicomTransfer.add_chunk Receiver.DicomTransfer.reconstruct_dataset
  simp [List.foldl_append]

theorem chunk_fold_reconstruct (pcid limit : Nat) (h2 : limit ≠ 0) (buf : List Nat)
    (t : Receiver.DicomTransfer) :
    (((chunkPdvs pcid limit buf).map PDataValue.data).foldl
        Receiver.DicomTransfer.add_chunk t).reconstruct_dataset
      = t.reconstruct_dataset ++ buf := by
  by_cases h1 : buf = []
  · subst h1
    rw [chunkPdvs_nil]
    simp
  · rw [chunkPdvs_cons pcid limit buf h1 h2]
    simp only [List.map_cons, List.foldl_cons]
    rw [chunk_fold_reconstruct pcid limit h2 (buf.drop limit) (t.add_chunk (buf.take limit)),
      add_chunk_reconstruct, List.append_assoc, List.take_append_drop]
termination_by buf.length
decreasing_by
  simp only [List.length_drop]
  have := List.length_pos.mpr h1
  omega

theorem arrivedTransfer_roundtrip (pcid limit : Nat) (h2 : limit ≠ 0) (buf : List Nat) :
    (Receiver.arrivedTransfer pcid
        ((chunkPdvs pcid limit buf).map PDataValue.data)).reconstruct_dataset = buf := by
  unfold Receiver.arrivedTransfer
  rw [chunk_fold_reconstruct pcid limit h2 buf (Receiver.DicomTransfer.new pcid)]
  rfl

theorem chunkPdvs_replicate_step (limit m pcid : Nat) (h2 : limit ≠ 0) (hm : m ≠ 0) :
    chunkPdvs pcid limit (List.replicate m (0 : Nat))
      = { presentationContextId := pcid, valueType := PDataValueType.data,
          isLast := decide (m ≤ limit), data := List.replicate (min limit m) 0 } ::
        chunkPdvs pcid limit (List.replicate (m - limit) 0) := by
  have hne : (List.replicate m (0 : Nat)) ≠ [] := by
    intro h
    have := congrArg List.length h
    simp only [List.length_replicate, List.length_nil] at this
    exact hm this
  rw [chunkPdvs_cons pcid limit _ hne h2, List.take_replicate, List.drop_replicate,
    List.length_replicate]

theorem chunkPdvs_replicate_40000 :
    chunkPdvs 1 16000 (List.replicate 40000 (0 : Nat))
      = [{ presentationContextId := 1, valueType := PDataValueType.data,
           isLast := false, data := List.replicate 16000 0 },
         { presentationContextId := 1, valueType := PDataValueType.data,
           isLast := false, data := List.replicate 16000 0 },
         { presentationContextId := 1, valueType := PDataValueType.data,
           isLast := true, data := List.replicate 8000 0 }] := by
  rw [chunkPdvs_replicate_step 16000 40000 1 (by norm_num) (by norm_num),
    (show (40000 - 16000 : Nat) = 24000 by norm_num),
    chunkPdvs_replicate_step 16000 24000 1 (by norm_num) (by norm_num),
    (show (24000 - 16000 : Nat) = 8000 by norm_num),
    chunkPdvs_replicate_step 16000 8000 1 (by norm_num) (by norm_num),
    (show (8000 - 16000 : Nat) = 0 by norm_num),
    (show (List.replicate 0 (0 : Nat)) = [] from rfl), chunkPdvs_nil]
  norm_num

/-! Claim theorems. -/

/-- Claim C4: for every dataset byte sequence, the sender fragmentation with a
payload cap of at least 1 produces `ceil(|m| / cap)` Data PDVs, every PDV
except possibly the last carries exactly `cap` bytes, only the final PDV has
`isLast = true`, and feeding the chunks in arrival order through the receiver-side
`add_chunk` and `reconstruct_dataset` pipeline restores the input byte-exactly; in
particular a 40000-byte dataset at cap 16000 yields three Data PDVs of sizes
16000, 16000 and 8000 with only the third marked last. -/
theorem c4_fragment_assemble_roundtrip (pcid limit : Nat) (buf : List Nat) (h : 1 ≤ limit) :
    (Receiver.arrivedTransfer pcid
        ((chunkPdvs pcid limit buf).map PDataValue.data)).reconstruct_dataset = buf
  ∧ (chunkPdvs pcid limit buf).length = (buf.length + limit - 1) / limit
  ∧ (∀ pdv ∈ (chunkPdvs pcid limit buf).dropLast, pdv.data.length = limit)
  ∧ (buf ≠ [] →
      (chunkPdvs pcid limit buf).map PDataValue.isLast
        = List.replicate ((chunkPdvs pcid limit buf).length - 1) false ++ [true])
  ∧ (chunkPdvs 1 16000 (List.replicate 40000 0)).map
      (fun pdv => (pdv.data.length, pdv.isLast))
      = [(16000, false), (16000, false), (8000, true)] := by
  have h2 : limit ≠ 0 := by omega
  refine ⟨arrivedTransfer_roundtrip pcid limit h2 buf,
    chunkPdvs_length pcid limit h2 buf,
    chunkPdvs_dropLast_size pcid limit h2 buf,
    fun h1 => chunkPdvs_isLast_shape pcid limit h2 buf h1, ?_⟩
  rw [chunkPdvs_replicate_40000]
  simp only [List.map_cons, List.map_nil, List.length_replicate]

/-- Witness for C4 at the concrete input `pcid = 1`, `limit = 2`,
`buf = [9, 8, 7]`. -/
theorem c4_fragment_assemble_roundtrip_witness :
    (1 : Nat) ≤ 2
  ∧ ((Receiver.arrivedTransfer 1
        ((chunkPdvs 1 2 [9, 8, 7]).map PDataValue.data)).reconstruct_dataset = [9, 8, 7]
    ∧ (chunkPdvs 1 2 [9, 8, 7]).length = (([9, 8, 7] : List Nat).length + 2 - 1) / 2
    ∧ (∀ pdv ∈ (chunkPdvs 1 2 [9, 8, 7]).dropLast, pdv.data.length = 2)
    ∧ (([9, 8, 7] : List Nat) ≠ [] →
        (chunkPdvs 1 2 [9, 8, 7]).map PDataValue.isLast
          = List.replicate ((chunkPdvs 1 2 [9, 8, 7]).length - 1) false ++ [true])
    ∧ (chunkPdvs 1 16000 (List.replicate 40000 0)).map
        (fun pdv => (pdv.data.length, pdv.isLast))
        = [(16000, false), (16000, false), (8000, true)]) :=
  ⟨by decide, c4_fragment_assemble_roundtrip 1 2 [9, 8, 7] (by decide)⟩

/-- Claim C2, settled against the code as a code bug: for a 40000-byte dataset
(three fragments at the 16000-byte sender cap),
`sender::DicomClient::send_single_file_simple` (`src/sender/dicom_client.rs`)
performs a blocking response receive after **every** data fragment — three
receives, the first two right after non-final fragments — whereas the claim
(and §9 of the spec, which fixes one-response-per-message as canonical)
requires exactly one receive, after the final fragment, as the parallel
implementation in `src/dicom_client.rs` does. -/
theorem c2_sender_receives_after_every_fragment :
    Sender.datasetTrace 1 (List.replicate 40000 0)
      = [WireEvent.sentPdu (Pdu.pdata [⟨1, PDataValueType.data, false, List.replicate 16000 0⟩]),
         WireEvent.receivedRsp,
         WireEvent.sentPdu (Pdu.pdata [⟨1, PDataValueType.data, false, List.replicate 16000 0⟩]),
         WireEvent.receivedRsp,
         WireEvent.sentPdu (Pdu.pdata [⟨1, PDataValueType.data, true, List.replicate 8000 0⟩]),
         WireEvent.receivedRsp]
  ∧ (Sender.datasetTrace 1 (List.replicate 40000 0)).map WireEvent.isReceive
      = [false, true, false, true, false, true]
  ∧ DC.datasetTrace 1 (List.replicate 40000 0)
      = [WireEvent.sentPdu (Pdu.pdata [⟨1, PDataValueType.data, false, List.replicate 16000 0⟩]),
         WireEvent.sentPdu (Pdu.pdata [⟨1, PDataValueType.data, false, List.replicate 16000 0⟩]),
         WireEvent.sentPdu (Pdu.pdata [⟨1, PDataValueType.data, true, List.replicate 8000 0⟩]),
         WireEvent.receivedRsp]
  ∧ (DC.datasetTrace 1 (List.replicate 40000 0)).map WireEvent.isReceive
      = [false, false, false, true] := by
  have hs : Sender.datasetTrace 1 (List.replicate 40000 0)
      = (chunkPdvs 1 16000 (List.replicate 40000 0)).flatMap
          (fun pdv => [WireEvent.sentPdu (Pdu.pdata [pdv]), WireEvent.receivedRsp]) := rfl
  have hd : DC.datasetTrace 1 (List.replicate 40000 0)
      = (chunkPdvs 1 16000 (List.replicate 40000 0)).map
          (fun pdv => WireEvent.sentPdu (Pdu.pdata [pdv])) ++ [WireEvent.receivedRsp] := rfl
  rw [hs, hd, chunkPdvs_replicate_40000]
  refine ⟨rfl, ?_, rfl, ?_⟩ <;> rfl

/-! Lemmas about the unique-SOP-class accumulator. -/

theorem uniqueSop_go_mem (files : List DicomFile) (acc : List String) (uid : String) :
    (uid ∈ files.foldl
        (fun acc f => if f.sopClassUid ∈ acc then acc else acc ++ [f.sopClassUid]) acc)
      ↔ uid ∈ acc ∨ uid ∈ files.map DicomFile.sopClassUid := by
  induction files generalizing acc with
  | nil => simp
  | cons f fs ih =>
      simp only [List.foldl_cons, List.map_cons, List.mem_cons]
      by_cases hc : f.sopClassUid ∈ acc
      · rw [if_pos hc, ih]
        constructor
        · rintro (h | h)
          · exact Or.inl h
          · exact Or.inr (Or.inr h)
        · rintro (h | h | h)
          · exact Or.inl h
          · exact Or.inl (h ▸ hc)
          · exact Or.inr h
      · rw [if_neg hc, ih]
        simp only [List.mem_append, List.mem_singleton]
        tauto

theorem uniqueSop_go_nodup (files : List DicomFile) (acc : List String) (h : acc.Nodup) :
    (files.foldl
        (fun acc f => if f.sopClassUid ∈ acc then acc else acc ++ [f.sopClassUid]) acc).Nodup := by
  induction files generalizing acc with
  | nil => simpa
  | cons f fs ih =>
      simp only [List.foldl_cons]
      by_cases hc : f.sopClassUid ∈ acc
      · rw [if_pos hc]
        exact ih acc h
      · rw [if_neg hc]
        refine ih _ ?_
        rw [List.nodup_append]
        refine ⟨h, List.nodup_singleton _, ?_⟩
        intro a ha hb
        rw [List.mem_singleton] at hb
        exact hc (hb ▸ ha)

theorem uniqueSopClasses_nodup (files : List DicomFile) :
    (Sender.uniqueSopClasses files).Nodup :=
  uniqueSop_go_nodup files [] List.nodup_nil

theorem uniqueSopClasses_mem (files : List DicomFile) (uid : String) :
    uid ∈ Sender.uniqueSopClasses files ↔ uid ∈ files.map DicomFile.sopClassUid := by
  unfold Sender.uniqueSopClasses
  rw [uniqueSop_go_mem files [] uid]
  simp

/-- Concrete CT-image input file used by the concrete-instance theorems. -/
def ctFile : DicomFile :=
  { path := "ct1.dcm", studyInstanceUid := "1.2.3.1", seriesInstanceUid := "1.2.3.1.1",
    sopInstanceUid := "1.2.3.1.1.1", sopClassUid := "1.2.840.10008.5.1.4.1.1.2",
    fileSize := 40000, modality := Option.none, patientId := Option.none,
    studyDate := Option.none }

/-- Claim C8: `get_transfer_syntaxes_for_category` returns, for every SOP-class
category, exactly the list prescribed by the policy table (spelled out on the
spec side as `specTransferSyntaxPolicy`): CT, MR, DR and DM the compressed set;
Enhanced every registered transfer syntax; Waveform and RawData the lossless
set; Endoscopy and Microscopy the compressed set plus all Video entries;
Legacy the basic set; every other category the lossless set. -/
theorem c8_policy_matches_spec_table (category : SopClassCategory) :
    get_transfer_syntaxes_for_category category = specTransferSyntaxPolicy category := by
  cases category <;> rfl

/-- Counterexample to claim C9 as stated: for a file set holding one CT file,
the proposed context carries the fixed basic two-element transfer-syntax list,
not `transferSyntaxesForCategory(ComputedTomography)` (the ten-element
compressed set). -/
theorem c9_counterexample_ct_gets_basic_list :
    Sender.proposedContexts [ctFile]
      = [("1.2.840.10008.5.1.4.1.1.2", ["1.2.840.10008.1.2.1", "1.2.840.10008.1.2"])]
  ∧ (SopClassRegistry.get "1.2.840.10008.5.1.4.1.1.2").map SopClassInfo.category
      = some SopClassCategory.ComputedTomography
  ∧ get_transfer_syntaxes_for_category SopClassCategory.ComputedTomography
      ≠ ["1.2.840.10008.1.2.1", "1.2.840.10008.1.2"] := by
  refine ⟨rfl, rfl, ?_⟩
  intro h
  exact absurd (congrArg List.length h) (by decide)

/-- Embeds the fixed presentation-context proposals of `send_files_blocking`
in `src/dicom_client.rs` (lines 73-90): four hard-coded contexts — Secondary
Capture, CT, MR and Computed Radiography Image Storage — each proposed with
the basic transfer-syntax pair, with no reference to the file set. -/
def DC.proposedContexts : List (String × List String) := [
  ("1.2.840.10008.5.1.4.1.1.7", ["1.2.840.10008.1.2.1", "1.2.840.10008.1.2"]),
  ("1.2.840.10008.5.1.4.1.1.2", ["1.2.840.10008.1.2.1", "1.2.840.10008.1.2"]),
  ("1.2.840.10008.5.1.4.1.1.4", ["1.2.840.10008.1.2.1", "1.2.840.10008.1.2"]),
  ("1.2.840.10008.5.1.4.1.1.1", ["1.2.840.10008.1.2.1", "1.2.840.10008.1.2"])
]

/-- Claim C9 as amended: neither sender variant derives its proposals from
`transferSyntaxesForCategory`, and no 128-context truncation exists. The
`src/sender/dicom_client.rs` variant proposes exactly one presentation context
per unique `sopClassUid` of the file set (pairwise-distinct abstract syntaxes,
covering exactly the SOP classes of the files), each with the fixed basic
transfer-syntax pair `[Explicit VR LE, Implicit VR LE]`. The
`src/dicom_client.rs` variant (the one `main_new.rs` compiles) instead proposes
a fixed four-context list — Secondary Capture, CT, MR, Computed Radiography —
each with the same basic pair, independent of the file set, so a file of any
other SOP class (for example Ultrasound Image Storage) gets no proposed
context there. -/
theorem c9_amended_fixed_proposal_lists (files : List DicomFile) :
    (((Sender.proposedContexts files).map Prod.fst).Nodup
      ∧ (∀ uid : String, uid ∈ (Sender.proposedContexts files).map Prod.fst
          ↔ uid ∈ files.map DicomFile.sopClassUid)
      ∧ ∀ pc ∈ Sender.proposedContexts files, pc.2 = Sender.proposalTransferSyntaxes)
  ∧ (DC.proposedContexts.map Prod.fst
        = ["1.2.840.10008.5.1.4.1.1.7", "1.2.840.10008.5.1.4.1.1.2",
           "1.2.840.10008.5.1.4.1.1.4", "1.2.840.10008.5.1.4.1.1.1"]
      ∧ (∀ pc ∈ DC.proposedContexts, pc.2 = get_basic_transfer_syntaxes)
      ∧ "1.2.840.10008.5.1.4.1.1.6.1" ∉ DC.proposedContexts.map Prod.fst) := by
  have hfst : (Sender.proposedContexts files).map Prod.fst = Sender.uniqueSopClasses files := by
    unfold Sender.proposedContexts
    have hcomp : (Prod.fst ∘ fun sopUid : String => (sopUid, Sender.proposalTransferSyntaxes))
        = id := rfl
    rw [List.map_map, hcomp, List.map_id]
  refine ⟨⟨?_, ?_, ?_⟩, rfl, ?_, ?_⟩
  · rw [hfst]
    exact uniqueSopClasses_nodup files
  · intro uid
    rw [hfst]
    exact uniqueSopClasses_mem files uid
  · intro pc hm
    unfold Sender.proposedContexts at hm
    obtain ⟨u, _, hu⟩ := List.mem_map.mp hm
    exact hu ▸ rfl
  · intro pc hm
    simp only [DC.proposedContexts, List.mem_cons, List.not_mem_nil, or_false] at hm
    rcases hm with h | h | h | h <;> rw [h] <;> rfl
  · decide

/-- Witness for the amended C9 at the concrete file set `[ctFile]`, the
concrete proposed context for the CT SOP class on the `Sender` side, and the
first fixed context on the `DC` side. -/
theorem c9_amended_fixed_proposal_lists_witness :
    (("1.2.840.10008.5.1.4.1.1.2", ["1.2.840.10008.1.2.1", "1.2.840.10008.1.2"]) :
        String × List String).2 = Sender.proposalTransferSyntaxes
  ∧ (("1.2.840.10008.5.1.4.1.1.7", ["1.2.840.10008.1.2.1", "1.2.840.10008.1.2"]) :
        String × List String).2 = get_basic_transfer_syntaxes :=
  ⟨(c9_amended_fixed_proposal_lists [ctFile]).1.2.2
      ("1.2.840.10008.5.1.4.1.1.2", ["1.2.840.10008.1.2.1", "1.2.840.10008.1.2"]) (by decide),
   (c9_amended_fixed_proposal_lists [ctFile]).2.2.1
      ("1.2.840.10008.5.1.4.1.1.7", ["1.2.840.10008.1.2.1", "1.2.840.10008.1.2"]) (by decide)⟩

/-- Concrete association result for C1: contexts 1 and 3 both accepted, with
the requesting side having proposed Secondary Capture on id 1 and CT on id 3. -/
def c1Contexts : List PresentationContextResult :=
  [{ id := 1, reason := PresentationContextResultReason.acceptance,
     transferSyntaxUid := "1.2.840.10008.1.2.1" },
   { id := 3, reason := PresentationContextResultReason.acceptance,
     transferSyntaxUid := "1.2.840.10008.1.2.1" }]

/-- Requested abstract syntaxes by context id for the C1 association. -/
def c1Abstracts : List (Nat × String) :=
  [(1, "1.2.840.10008.5.1.4.1.1.7"), (3, "1.2.840.10008.5.1.4.1.1.2")]

/-- Claim C1, settled against the code as a code bug: sending the CT file over
the concrete association above, `send_single_file_simple` of
`src/dicom_client.rs` picks context id 1 — the first accepted context, whose
proposed abstract syntax is Secondary Capture, not the CT SOP class of the
file — instead of the matching id 3, which the parallel lookup of
`src/sender/dicom_client.rs` does select. -/
theorem c1_first_accepted_context_ignores_sop_class :
    (DC.findAcceptedContext c1Contexts).map PresentationContextResult.id = some 1
  ∧ Sender.lookupSopUid c1Abstracts 1 = some "1.2.840.10008.5.1.4.1.1.7"
  ∧ ctFile.sopClassUid = "1.2.840.10008.5.1.4.1.1.2"
  ∧ "1.2.840.10008.5.1.4.1.1.7" ≠ "1.2.840.10008.5.1.4.1.1.2"
  ∧ (Sender.findContextForSopClass c1Contexts c1Abstracts ctFile.sopClassUid).map
      PresentationContextResult.id = some 3 := by
  refine ⟨rfl, rfl, rfl, ?_, rfl⟩
  decide

/-- Claim C3, settled against the code as a code bug: `send_c_store_response`
of `src/receiver/receiver.rs` returns one and the same hard-coded 60-byte blob
for two requests carrying different Message IDs (so
`MessageIDBeingRespondedTo` cannot equal the Message ID of the request), the
blob holds no implicit-VR `(0000,0800)` CommandDataSetType element at all, and
the receiver emits such a response after every P-DATA PDU — here after a lone
non-final Command PDV, with no completed message. -/
theorem c3_receiver_response_is_hardcoded_blob :
    Receiver.send_c_store_response
        [{ presentationContextId := 1, valueType := PDataValueType.command,
           isLast := true, data := encodeUSElement 0 0x0110 2 }]
      = Pdu.pdata [{ presentationContextId := 1, valueType := PDataValueType.command,
                     isLast := true, data := Receiver.responseData }]
  ∧ Receiver.send_c_store_response
        [{ presentationContextId := 1, valueType := PDataValueType.command,
           isLast := true, data := encodeUSElement 0 0x0110 9 }]
      = Pdu.pdata [{ presentationContextId := 1, valueType := PDataValueType.command,
                     isLast := true, data := Receiver.responseData }]
  ∧ containsSeg [0x00, 0x00, 0x00, 0x08] Receiver.responseData = false
  ∧ (Receiver.processPData []
        [{ presentationContextId := 1, valueType := PDataValueType.command,
           isLast := false, data := [] }]).2
      = [Receiver.RecvEvent.sentPdu (Pdu.pdata
          [{ presentationContextId := 1, valueType := PDataValueType.command,
             isLast := true, data := Receiver.responseData }])] := by
  refine ⟨rfl, rfl, ?_, rfl⟩
  decide

/-- Claim C5, settled against the code as a code bug: the reply handling of
`send_single_file_simple` returns `Ok` — and the per-file loop therefore counts
the file successful — for every reply whatsoever: a C-STORE-RSP whose Status is
`0xC000` (not success under the §4.5.2 classification) and even an A-ABORT; no
status is ever parsed or surfaced. -/
theorem c5_any_reply_counted_successful :
    DC.cStoreReplyResult (Pdu.pdata
        [{ presentationContextId := 1, valueType := PDataValueType.command,
           isLast := true, data := encodeUSElement 0 0x0900 0xC000 }]) 40000
      = Except.ok 40000
  ∧ DC.cStoreReplyResult (Pdu.abortRQ 0 0) 40000 = Except.ok 40000
  ∧ specStatusIsSuccess 0xC000 = false
  ∧ specStatusIsSuccess 0x0000 = true
  ∧ specStatusIsSuccess 0xB007 = true
  ∧ (sendFilesLoopStats [Except.ok (40000, 5)]).successfulTransfers = 1
  ∧ (sendFilesLoopStats [Except.ok (40000, 5)]).failedTransfers = 0 := by
  refine ⟨rfl, rfl, ?_, ?_, ?_, rfl, rfl⟩ <;> decide

/-- Claim C6, settled against the code as a code bug: a Data PDV with
`isLast = true` arriving on context 5 of a fresh association — before any
Command PDV on that context — is buffered, persisted to disk as a completed
dataset, and acknowledged with the usual response; no `ProtocolViolation` is
raised and the association is not aborted (the receive loop has no such check;
`command_received` is written but never read). -/
theorem c6_data_before_command_buffered_and_persisted :
    Receiver.processPData []
        [{ presentationContextId := 5, valueType := PDataValueType.data,
           isLast := true, data := [1, 2, 3] }]
      = ([], [Receiver.RecvEvent.savedFile 5 [1, 2, 3],
              Receiver.RecvEvent.sentPdu (Pdu.pdata
                [{ presentationContextId := 5, valueType := PDataValueType.command,
                   isLast := true, data := Receiver.responseData }])]) := by
  decide

/-- Input files for the C7 concrete instance: two files of one study. -/
def fileA : DicomFile :=
  { path := "a.dcm", studyInstanceUid := "1.2.3.9", seriesInstanceUid := "1.2.3.9.1",
    sopInstanceUid := "1.2.3.9.1.1", sopClassUid := "1.2.840.10008.5.1.4.1.1.2",
    fileSize := 100, modality := Option.none, patientId := Option.none,
    studyDate := Option.none }

/-- Second input file for the C7 concrete instance. -/
def fileB : DicomFile :=
  { path := "b.dcm", studyInstanceUid := "1.2.3.9", seriesInstanceUid := "1.2.3.9.1",
    sopInstanceUid := "1.2.3.9.1.2", sopClassUid := "1.2.840.10008.5.1.4.1.1.2",
    fileSize := 200, modality := Option.none, patientId := Option.none,
    studyDate := Option.none }

/-- Claim C7, settled against the code as a code bug: when a whole study of two
files fails before any file is sent (`client.send_files` returns `Err`),
`send_studies_worker` of `src/main_new.rs` adds 2 to `failed_transfers` but
leaves `total_files` at 0, so `successful + failed = totalFiles` does not hold
for the aggregated stats; the per-association loop itself does keep the
invariant at this kind of input. -/
theorem c7_failed_study_breaks_stats_invariant :
    (MainNew.sendStudiesWorker
        [([fileA, fileB], Except.error "Failed to establish DICOM association")]).totalFiles = 0
  ∧ (MainNew.sendStudiesWorker
        [([fileA, fileB], Except.error "Failed to establish DICOM association")]).successfulTransfers = 0
  ∧ (MainNew.sendStudiesWorker
        [([fileA, fileB], Except.error "Failed to establish DICOM association")]).failedTransfers = 2
  ∧ ¬ ((MainNew.sendStudiesWorker
          [([fileA, fileB], Except.error "Failed to establish DICOM association")]).successfulTransfers
        + (MainNew.sendStudiesWorker
            [([fileA, fileB], Except.error "Failed to establish DICOM association")]).failedTransfers
        = (MainNew.sendStudiesWorker
            [([fileA, fileB], Except.error "Failed to establish DICOM association")]).totalFiles)
  ∧ (sendFilesLoopStats [Except.error "x", Except.ok (100, 1)]).successfulTransfers
      + (sendFilesLoopStats [Except.error "x", Except.ok (100, 1)]).failedTransfers
      = (sendFilesLoopStats [Except.error "x", Except.ok (100, 1)]).totalFiles := by
  refine ⟨rfl, rfl, rfl, ?_, rfl⟩
  decide

/-- Claim C10: `send_files` called with an empty file list — in both sender
implementations — returns `Ok` with the all-zero `TransferStats` and performs
no network action at all: no connection attempt, no PDU written. -/
theorem c10_empty_file_list_returns_zero_stats_without_connecting
    (config : DicomClientConfig) (estab : Except String Unit)
    (perFile : DicomFile → Except String (Nat × Nat)) :
    DC.sendFiles config [] estab perFile = (Except.ok TransferStats.new, [])
  ∧ Sender.sendFiles config [] estab perFile = (Except.ok TransferStats.new, [])
  ∧ TransferStats.new.totalFiles = 0
  ∧ TransferStats.new.successfulTransfers = 0
  ∧ TransferStats.new.failedTransfers = 0
  ∧ TransferStats.new.totalBytes = 0
  ∧ TransferStats.new.transferTimes = ([] : List Nat) := by
  exact ⟨rfl, rfl, rfl, rfl, rfl, rfl, rfl⟩
